import Mathlib

set_option linter.unusedVariables false

/-!
Verification of the ticket change-detection and SLA-evaluation engine of the
zendesk-dashboard project.  The definitions below are shallow embeddings of:

* `parse_sla_metrics` (scripts/zendesk_server.py, Python): resolving a ticket's
  raw per-metric-type SLA event streams into one SLA evaluation;
* `getSLAStatus`, `renderSLABadge` and the SLA-bucket portion of
  `calculateStats` (scripts/zendesk_server.py, embedded JavaScript): per-ticket
  SLA classification and presentation;
* `ZendeskMonitor.detect_changes` and `ZendeskMonitor.get_stats`
  (scripts/zendesk_monitor.py, Python): delta detection against the previous
  snapshot, and batch statistics.

Timestamps are rationals (JavaScript `Date` milliseconds); a JavaScript `NaN`
arising from a missing `created_at` is modelled by `Option`, with the
comparison operators returning `false` on `none` exactly as NaN comparisons do.
Python dictionaries are modelled as association lists with Python's
insertion-order/overwrite semantics, and Python exceptions by `Except`.
-/

namespace ZD

/-- The `policy` sub-object of an `apply_sla` event's `sla` payload. -/
structure SlaPolicy where
  title : Option String
  id : Option Nat
deriving DecidableEq, Repr

/-- The `sla` payload of an `apply_sla` metric event. -/
structure SlaData where
  target_in_seconds : Option ℚ
  target : Option ℚ
  business_hours : Option Bool
  policy : Option SlaPolicy
deriving DecidableEq, Repr

/-- One raw SLA metric event: kind (`apply_sla`, `fulfill`, `breach`), the
`sla` payload carried by `apply_sla` events, and the optional `time` carried
by `breach` events. -/
structure Event where
  type : String
  sla : Option SlaData
  time : Option ℚ
deriving DecidableEq, Repr

/-- The per-metric-type event streams of one ticket, as fed to
`parse_sla_metrics`: a dictionary with (optional) keys `resolution_time` and
`reply_time`. -/
structure MetricData where
  resolution_time : Option (List Event)
  reply_time : Option (List Event)
deriving DecidableEq, Repr

/-- The resolved SLA evaluation (`sla_info` dict built by
`parse_sla_metrics`), attached to tickets as `sla_metrics`. -/
structure SlaInfo where
  metric_type : String
  target_seconds : ℚ
  business_hours : Bool
  policy_title : String
  policy_id : Option Nat
  fulfilled : Bool
  breached : Bool
  breach_time : Option ℚ
deriving DecidableEq, Repr

/-- `sla_data.get('target_in_seconds', sla_data.get('target', 0) * 60)`. -/
def targetSeconds (s : SlaData) : ℚ :=
  match s.target_in_seconds with
  | some v => v
  | none => (s.target.getD 0) * 60

/-- `sla_data.get('policy', \x7b\x7d).get('title', 'Unknown')`. -/
def policyTitle (s : SlaData) : String :=
  match s.policy with
  | some p => p.title.getD "Unknown"
  | none => "Unknown"

/-- `sla_data.get('policy', \x7b\x7d).get('id')`. -/
def policyId (s : SlaData) : Option Nat :=
  match s.policy with
  | some p => p.id
  | none => none

/-- The first-event scan of `parse_sla_metrics`: the `sla` payload of the
first event with `type == 'apply_sla'` that carries an `sla` key. -/
def findApplySla : List Event → Option SlaData
  | [] => none
  | e :: es => if e.type = "apply_sla" ∧ e.sla.isSome then e.sla else findApplySla es

/-- The `fulfill` scan of `parse_sla_metrics`: `fulfilled = True` once a
`fulfill` event is seen. -/
def scanFulfill (events : List Event) : Bool :=
  events.any fun e => e.type = "fulfill"

/-- The `breach` scan of `parse_sla_metrics`: `breach_time` is overwritten by
each `breach` event's `time`, so it ends as the last breach event's `time`. -/
def scanBreachTime (events : List Event) : Option ℚ :=
  events.foldl (fun acc e => if e.type = "breach" then e.time else acc) none

/-- The last event of kind `breach` in a stream (a specification-side view of
the scan above). -/
def lastBreachEvent (events : List Event) : Option Event :=
  events.foldl (fun acc e => if e.type = "breach" then some e else acc) none

/-- Evaluate one metric-type event stream: build `sla_info` from the
`apply_sla` event, then set `fulfilled`/`breached` from the fulfill/breach
scans (`breached` is `breach_time is not None`). -/
def evalStream (metric_type : String) (events : List Event) : Option SlaInfo :=
  match findApplySla events with
  | none => none
  | some sd =>
    some { metric_type := metric_type
           target_seconds := targetSeconds sd
           business_hours := sd.business_hours.getD false
           policy_title := policyTitle sd
           policy_id := policyId sd
           fulfilled := scanFulfill events
           breached := (scanBreachTime events).isSome
           breach_time := scanBreachTime events }

/-- `parse_sla_metrics(metric_data, ticket_status)`: try `resolution_time`
first, fall back to `reply_time`; a stream yields an evaluation only if it
contains an `apply_sla` event carrying an `sla` payload.  The
`ticket_status` argument is accepted but never influences the result, as in
the source. -/
def parse_sla_metrics (metric_data : Option MetricData) (ticket_status : Option String) :
    Option SlaInfo :=
  match metric_data with
  | none => none
  | some md =>
    let tryStream : Option (List Event) → String → Option SlaInfo := fun evs mt =>
      match evs with
      | none => none
      | some events => evalStream mt events
    match tryStream md.resolution_time "resolution_time" with
    | some info => some info
    | none =>
      match tryStream md.reply_time "reply_time" with
      | some info => some info
      | none => none

/-- A ticket as seen by the dashboard script: `created_at` as a millisecond
timestamp (`none` when the field is missing, making the age NaN), the raw
status string, and the attached SLA evaluation. -/
structure Ticket where
  created_at : Option ℚ
  status : String
  priority : Option String
  assignee_id : Option Nat
  sla_metrics : Option SlaInfo
deriving DecidableEq, Repr

/-- The object returned by `getSLAStatus`; absent JavaScript fields are
`none`/`false`. -/
structure SLARes where
  status : String
  label : String
  remaining : Option ℚ := none
  overdue : Bool := false
  fulfilled : Option Bool := none
  metricType : Option String := none
  policy : Option String := none
deriving DecidableEq, Repr

/-- JavaScript `x <= c` where `x` may be NaN (modelled `none`): NaN
comparisons are false. -/
def jsLe (x : Option ℚ) (c : ℚ) : Bool :=
  match x with
  | none => false
  | some v => v ≤ c

/-- `getSLAStatus(ticket)` with the clock passed explicitly (ms). -/
def getSLAStatus (now : ℚ) (t : Ticket) : SLARes :=
  let ageMinutes : Option ℚ := t.created_at.map fun c => (now - c) / (1000 * 60)
  if t.status = "solved" ∨ t.status = "closed" then
    match t.sla_metrics with
    | some m =>
      if m.breached then
        { status := "breach", label := "Breached", remaining := none,
          fulfilled := some m.fulfilled, metricType := some m.metric_type }
      else
        { status := "ok", label := "Met", remaining := none,
          fulfilled := some m.fulfilled, metricType := some m.metric_type }
    | none => { status := "ok", label := "Resolved", remaining := none }
  else
    match t.sla_metrics with
    | some m =>
      if m.target_seconds ≠ 0 then
        let slaTargetMinutes := m.target_seconds / 60
        let remaining : Option ℚ := ageMinutes.map fun a => slaTargetMinutes - a
        let percentRemaining : Option ℚ := remaining.map fun r => r / slaTargetMinutes * 100
        let metricLabel := if m.metric_type = "resolution_time" then "Resolution" else "Reply"
        if m.breached || jsLe remaining 0 then
          { status := "breach", label := "Breached", remaining := remaining.map (fun r => |r|),
            overdue := true, policy := some m.policy_title, metricType := some metricLabel }
        else if jsLe percentRemaining 25 then
          { status := "warning", label := "At Risk", remaining := remaining,
            overdue := false, policy := some m.policy_title, metricType := some metricLabel }
        else
          { status := "ok", label := "On Track", remaining := remaining,
            overdue := false, policy := some m.policy_title, metricType := some metricLabel }
      else { status := "none", label := "No SLA", remaining := none }
    | none => { status := "none", label := "No SLA", remaining := none }

/-- JavaScript `Math.round`. -/
def jsRound (x : ℚ) : ℤ := Int.floor (x + 1 / 2)

/-- `formatSLATime(minutes)`. -/
def formatSLATime (minutes : ℚ) : String :=
  if minutes < 60 then toString (jsRound minutes) ++ "m"
  else if minutes < 1440 then toString (jsRound (minutes / 60)) ++ "h"
  else toString (jsRound (minutes / 1440)) ++ "d"

/-- `renderSLABadge(ticket)`: breach badges are suppressed whenever the
computed `metricType` differs from the display label `Resolution`. -/
def renderSLABadge (now : ℚ) (t : Ticket) : String :=
  let sla := getSLAStatus now t
  if sla.status = "breach" ∧ sla.metricType ≠ some "Resolution" then ""
  else
    let timeText :=
      match sla.remaining with
      | some r => if sla.overdue then "+" ++ formatSLATime r else formatSLATime r
      | none => ""
    let badgeText := sla.label ++ (if timeText ≠ "" then " (" ++ timeText ++ ")" else "")
    let tooltipParts :=
      (match sla.policy with
       | some p => if p ≠ "" then ["Policy: " ++ p] else []
       | none => []) ++
      (match sla.metricType with
       | some mt => if mt ≠ "" then ["Metric: " ++ mt] else []
       | none => [])
    let titleAttr :=
      if tooltipParts ≠ [] then "title=\"" ++ String.intercalate ", " tooltipParts ++ "\"" else ""
    "<span class=\"sla-badge sla-" ++ sla.status ++ "\" " ++ titleAttr ++ ">" ++ badgeText ++ "</span>"

/-- The `stats.sla` counters of `calculateStats`. -/
structure SlaBuckets where
  breached : Nat
  atRisk : Nat
  onTrack : Nat
deriving DecidableEq, Repr

/-- The SLA-bucket portion of the `calculateStats` per-ticket fold body:
only non-terminal tickets whose `sla_metrics.metric_type` is
`resolution_time` are counted in any bucket. -/
def slaBucketStep (now : ℚ) (acc : SlaBuckets) (t : Ticket) : SlaBuckets :=
  let status := if t.status = "" then "unknown" else t.status
  if ¬(status = "solved" ∨ status = "closed") then
    let sla := getSLAStatus now t
    let isResolutionSLA : Bool :=
      match t.sla_metrics with
      | some m => m.metric_type = "resolution_time"
      | none => false
    if sla.status = "breach" ∧ isResolutionSLA = true then { acc with breached := acc.breached + 1 }
    else if sla.status = "warning" ∧ isResolutionSLA = true then { acc with atRisk := acc.atRisk + 1 }
    else if isResolutionSLA = true then { acc with onTrack := acc.onTrack + 1 }
    else acc
  else acc

/-- The `stats.sla` triple computed by `calculateStats` over a batch. -/
def calculateSlaStats (now : ℚ) (tickets : List Ticket) : SlaBuckets :=
  tickets.foldl (slaBucketStep now) ⟨0, 0, 0⟩

/-- A ticket as seen by `ZendeskMonitor` (zendesk_monitor.py): a required
`id` and the optional fields the monitor reads with `.get`. -/
structure MTicket where
  id : Nat
  status : Option String
  priority : Option String
  requester_id : Option Nat
  type : Option String
deriving DecidableEq, Repr

/-- Python-dict insertion for the `id → ticket` mapping: overwrite in place
when the key exists, append otherwise (insertion-order semantics). -/
def dictInsert (m : List (Nat × MTicket)) (t : MTicket) : List (Nat × MTicket) :=
  if m.any (fun p => p.1 = t.id) then
    m.map fun p => if p.1 = t.id then (p.1, t) else p
  else m ++ [(t.id, t)]

/-- `current_ids = \x7bt['id']: t for t in current_tickets\x7d`. -/
def buildIds (batch : List MTicket) : List (Nat × MTicket) :=
  batch.foldl dictInsert []

/-- Dictionary lookup on the id mapping. -/
def lookupId (k : Nat) : List (Nat × MTicket) → Option MTicket
  | [] => none
  | p :: ps => if p.1 = k then some p.2 else lookupId k ps

/-- The Delta Record built by one `detect_changes` call: new tickets, and
(ticket, old, new) pairs for status and priority changes. -/
structure Changes where
  new_tickets : List MTicket
  status_changes : List (MTicket × Option String × Option String)
  priority_changes : List (MTicket × Option String × Option String)
deriving DecidableEq, Repr

/-- `ZendeskMonitor.detect_changes(current_tickets)`: compares the incoming
batch (keyed by id) against the previous snapshot, and returns the Delta
Record together with the replacement snapshot (`self.previous_tickets =
current_ids`). -/
def detect_changes (previous_tickets : List (Nat × MTicket)) (current_tickets : List MTicket) :
    Changes × List (Nat × MTicket) :=
  let current_ids := buildIds current_tickets
  ({ new_tickets := (current_ids.filter fun p => (lookupId p.1 previous_tickets).isNone).map Prod.snd
     status_changes := current_ids.filterMap fun p =>
       match lookupId p.1 previous_tickets with
       | none => none
       | some prev => if prev.status ≠ p.2.status then some (p.2, prev.status, p.2.status) else none
     priority_changes := current_ids.filterMap fun p =>
       match lookupId p.1 previous_tickets with
       | none => none
       | some prev =>
         if prev.priority ≠ p.2.priority then some (p.2, prev.priority, p.2.priority) else none },
   current_ids)

/-- The `stats` dictionary built by `ZendeskMonitor.get_stats`: the
pre-initialized integer counters, plus the two `defaultdict(int)` maps. -/
structure MStats where
  total : Nat
  urgent : Nat
  high : Nat
  normal : Nat
  low : Nat
  new : Nat
  open_ : Nat
  pending : Nat
  solved : Nat
  closed : Nat
  by_requester : List (Option Nat × Nat)
  by_type : List (String × Nat)
deriving DecidableEq, Repr

/-- `stats[key] += 1` on the plain `stats` dict: incrementing a key that was
never initialized raises `KeyError`, modelled as `Except.error`. -/
def bumpKey (s : MStats) (k : String) : Except String MStats :=
  if k = "total" then .ok { s with total := s.total + 1 }
  else if k = "urgent" then .ok { s with urgent := s.urgent + 1 }
  else if k = "high" then .ok { s with high := s.high + 1 }
  else if k = "normal" then .ok { s with normal := s.normal + 1 }
  else if k = "low" then .ok { s with low := s.low + 1 }
  else if k = "new" then .ok { s with new := s.new + 1 }
  else if k = "open" then .ok { s with open_ := s.open_ + 1 }
  else if k = "pending" then .ok { s with pending := s.pending + 1 }
  else if k = "solved" then .ok { s with solved := s.solved + 1 }
  else if k = "closed" then .ok { s with closed := s.closed + 1 }
  else .error ("KeyError: " ++ k)

/-- `defaultdict(int)` increment: missing keys start at 0. -/
def bumpCount {α : Type} [DecidableEq α] (m : List (α × Nat)) (k : α) : List (α × Nat) :=
  if m.any (fun p => p.1 = k) then
    m.map fun p => if p.1 = k then (p.1, p.2 + 1) else p
  else m ++ [(k, 1)]

/-- `ZendeskMonitor.get_stats(tickets)`: counters pre-initialized only for
the four priorities and five statuses; each ticket bumps
`stats[priority]` (priority defaulting to `'none'`) and `stats[status]`
(status defaulting to `'unknown'`), then the two defaultdicts. -/
def get_stats (tickets : List MTicket) : Except String MStats :=
  tickets.foldlM
    (fun s t => do
      let s1 ← bumpKey s (t.priority.getD "none")
      let s2 ← bumpKey s1 (t.status.getD "unknown")
      pure { s2 with
               by_requester := bumpCount s2.by_requester t.requester_id
               by_type := bumpCount s2.by_type (t.type.getD "unknown") })
    { total := tickets.length, urgent := 0, high := 0, normal := 0, low := 0,
      new := 0, open_ := 0, pending := 0, solved := 0, closed := 0,
      by_requester := [], by_type := [] }

/-- Whether a stream contains any event of kind `breach`. -/
def breachObserved (events : List Event) : Bool :=
  events.any fun e => e.type = "breach"

/-! Concrete example data used by the counterexamples and witnesses. -/

/-- A breached `resolution_time` evaluation (target 6h). -/
def mEx : SlaInfo :=
  { metric_type := "resolution_time", target_seconds := 21600, business_hours := false,
    policy_title := "Premium", policy_id := some 7, fulfilled := true, breached := true,
    breach_time := some 100 }

/-- A solved ticket carrying the breached `resolution_time` evaluation. -/
def tSolvedBreached : Ticket :=
  { created_at := some 0, status := "solved", priority := some "high",
    assignee_id := none, sla_metrics := some mEx }

/-- A breached `reply_time` evaluation. -/
def mReply : SlaInfo :=
  { metric_type := "reply_time", target_seconds := 3600, business_hours := false,
    policy_title := "Premium", policy_id := some 7, fulfilled := false, breached := true,
    breach_time := some 100 }

/-- An open ticket carrying the breached `reply_time` evaluation. -/
def tReplyBreached : Ticket :=
  { created_at := some 0, status := "open", priority := some "high",
    assignee_id := none, sla_metrics := some mReply }

/-- An unbreached `resolution_time` evaluation with `target_seconds = 0`. -/
def mZeroTarget : SlaInfo :=
  { metric_type := "resolution_time", target_seconds := 0, business_hours := false,
    policy_title := "Premium", policy_id := some 7, fulfilled := false, breached := false,
    breach_time := none }

/-- An open ticket with the zero-target evaluation attached. -/
def tZeroTarget : Ticket :=
  { created_at := some 0, status := "open", priority := some "high",
    assignee_id := none, sla_metrics := some mZeroTarget }

/-- An unbreached `resolution_time` evaluation with a negative target. -/
def mNegTarget : SlaInfo :=
  { mZeroTarget with target_seconds := -60 }

/-- An unbreached `resolution_time` evaluation with a 1h target. -/
def mHourTarget : SlaInfo :=
  { mZeroTarget with target_seconds := 3600 }

/-- An open ticket with a missing `created_at` and the 1h evaluation. -/
def tNoCreated : Ticket :=
  { created_at := none, status := "open", priority := none,
    assignee_id := none, sla_metrics := some mHourTarget }

/-- An `apply_sla` event's payload: 1h target, Gold policy. -/
def sdEx : SlaData :=
  { target_in_seconds := some 3600, target := none, business_hours := some true,
    policy := some ⟨some "Gold", some 2⟩ }

/-- A stream whose breach event carries no `time`. -/
def evsUntimedBreach : List Event :=
  [⟨"apply_sla", some sdEx, none⟩, ⟨"breach", none, none⟩]

/-- A stream with a timed breach followed by a fulfill. -/
def evsBreachFulfill : List Event :=
  [⟨"apply_sla", some sdEx, none⟩, ⟨"breach", none, some 5⟩, ⟨"fulfill", none, none⟩]

/-- A stream with a reply-time apply event only. -/
def evsReplyOnly : List Event :=
  [⟨"apply_sla", some sdEx, none⟩]

/-- A monitor ticket without a `priority` field. -/
def mtNoPriority : MTicket :=
  { id := 1, status := some "new", priority := none, requester_id := none, type := none }

/-- A monitor ticket whose status `hold` has no pre-initialized counter. -/
def mtHold : MTicket :=
  { id := 2, status := some "hold", priority := some "normal", requester_id := none, type := none }

/-- A small monitor batch with distinct ids. -/
def mBatch : List MTicket :=
  [⟨1, some "open", some "high", none, none⟩, ⟨2, some "new", none, none, none⟩]

/-- A fresh open ticket with a 1h target: comfortably on track. -/
def tOnTrack : Ticket :=
  { created_at := some 0, status := "new", priority := some "normal",
    assignee_id := none, sla_metrics := some mHourTarget }

/-- An open ticket with the negative-target evaluation attached. -/
def tNegTarget : Ticket :=
  { created_at := some 0, status := "open", priority := none,
    assignee_id := none, sla_metrics := some mNegTarget }

/-- Metric data where both streams carry `apply_sla` events. -/
def mdRes : MetricData :=
  { resolution_time := some evsBreachFulfill, reply_time := some evsReplyOnly }

/-- Metric data with only a `reply_time` stream. -/
def mdReplyOnly : MetricData :=
  { resolution_time := none, reply_time := some evsReplyOnly }

/-- The evaluation of `evsBreachFulfill`: timed breach and fulfill. -/
def iBF : SlaInfo :=
  { metric_type := "resolution_time", target_seconds := 3600, business_hours := true,
    policy_title := "Gold", policy_id := some 2, fulfilled := true, breached := true,
    breach_time := some 5 }

/-! ## Theorems -/

/-- C1: a solved ticket whose `resolution_time` evaluation is breached is
classified `breach` by `getSLAStatus`, but `renderSLABadge` renders the
empty string for it: the terminal branch stores the raw `metric_type`
string `resolution_time` in `metricType`, while the badge guard compares
against the display label `Resolution`, so every terminal-state breach badge
is suppressed — contradicting the suppression comment's stated scope
(reply-time and other non-resolution SLAs only). -/
theorem C1_terminal_resolution_breach_badge_suppressed :
    (getSLAStatus 1000000 tSolvedBreached).status = "breach" ∧
    (getSLAStatus 1000000 tSolvedBreached).metricType = some "resolution_time" ∧
    renderSLABadge 1000000 tSolvedBreached = "" :=
  ⟨rfl, rfl, rfl⟩

/-- C5 counterexample: an open ticket whose evaluation has
`target_seconds = 0` is classified `none` (`No SLA`), not `breach`: the
JavaScript guard `slaMetrics.target_seconds` is falsy at 0, so the
classification falls through to the no-SLA branch instead of treating the
ticket as already breached. -/
theorem C5_zero_target_not_breached :
    (getSLAStatus 1000 tZeroTarget).status = "none" ∧
    (getSLAStatus 1000 tZeroTarget).label = "No SLA" ∧
    ¬(getSLAStatus 1000 tZeroTarget).status = "breach" :=
  ⟨rfl, rfl, by decide⟩

/-- C6 counterexample: an open ticket with a missing `created_at` but an
attached evaluation (1h target, not breached) is classified `ok`
(`On Track`), not `none`: the NaN age makes both time comparisons false, so
the classification falls into the on-track branch. -/
theorem C6_missing_created_at_on_track :
    (getSLAStatus 0 tNoCreated).status = "ok" ∧
    (getSLAStatus 0 tNoCreated).label = "On Track" ∧
    ¬(getSLAStatus 0 tNoCreated).status = "none" :=
  ⟨rfl, rfl, by decide⟩

/-- C7 counterexample: a stream carrying a `breach` event without a `time`
field yields an evaluation with `breached = false`, although a breach event
was observed: `breached` is computed as `breach_time is not None` from the
last breach event's `time`. -/
theorem C7_untimed_breach_flag_false :
    breachObserved evsUntimedBreach = true ∧
    (parse_sla_metrics (some ⟨some evsUntimedBreach, none⟩) (some "open")).map SlaInfo.breached
      = some false :=
  ⟨rfl, rfl⟩

/-- A stream yields an evaluation exactly when the `apply_sla` scan finds a
payload. -/
theorem evalStream_eq_none_iff (mt : String) (evs : List Event) :
    evalStream mt evs = none ↔ findApplySla evs = none := by
  unfold evalStream
  cases h : findApplySla evs <;> simp

/-- The evaluation records the metric type of the stream it came from. -/
theorem evalStream_metric_type (mt : String) (evs : List Event) (i : SlaInfo)
    (h : evalStream mt evs = some i) : i.metric_type = mt := by
  unfold evalStream at h
  cases hf : findApplySla evs <;> rw [hf] at h
  · exact absurd h (by simp)
  · cases h
    rfl

/-- C4: `parse_sla_metrics` tries the `resolution_time` stream first and
returns its evaluation whenever that stream carries an `apply_sla` event
(one with an `sla` payload); it falls back to the `reply_time` stream only
when `resolution_time` is absent or carries no such event; and it returns
`none` when neither stream yields an evaluation. -/
theorem C4_metric_precedence (md : MetricData) (st : Option String) :
    (∀ evs, md.resolution_time = some evs → (findApplySla evs).isSome = true →
        parse_sla_metrics (some md) st = evalStream "resolution_time" evs ∧
        (∀ i, evalStream "resolution_time" evs = some i → i.metric_type = "resolution_time")) ∧
    ((md.resolution_time = none ∨
        ∃ evs, md.resolution_time = some evs ∧ findApplySla evs = none) →
      (∀ evs, md.reply_time = some evs → (findApplySla evs).isSome = true →
          parse_sla_metrics (some md) st = evalStream "reply_time" evs ∧
          (∀ i, evalStream "reply_time" evs = some i → i.metric_type = "reply_time")) ∧
      ((md.reply_time = none ∨ ∃ evs, md.reply_time = some evs ∧ findApplySla evs = none) →
        parse_sla_metrics (some md) st = none)) := by
  constructor
  · intro evs hres happly
    obtain ⟨i, hi⟩ : ∃ i, evalStream "resolution_time" evs = some i := by
      rcases h2 : evalStream "resolution_time" evs with _ | j
      · rw [evalStream_eq_none_iff] at h2
        rw [h2] at happly
        exact absurd happly (by simp)
      · exact ⟨j, rfl⟩
    refine ⟨?_, fun j hj => evalStream_metric_type _ _ _ hj⟩
    simp only [parse_sla_metrics, hres, hi]
  · intro hnores
    have hresNone :
        (match md.resolution_time with
          | none => (none : Option SlaInfo)
          | some events => evalStream "resolution_time" events) = none := by
      rcases hnores with h | ⟨evs, hevs, hnone⟩
      · rw [h]
      · rw [hevs]
        exact (evalStream_eq_none_iff _ _).mpr hnone
    constructor
    · intro evs hrep happly
      obtain ⟨i, hi⟩ : ∃ i, evalStream "reply_time" evs = some i := by
        rcases h2 : evalStream "reply_time" evs with _ | j
        · rw [evalStream_eq_none_iff] at h2
          rw [h2] at happly
          exact absurd happly (by simp)
        · exact ⟨j, rfl⟩
      refine ⟨?_, fun j hj => evalStream_metric_type _ _ _ hj⟩
      simp only [parse_sla_metrics, hrep, hresNone, hi]
    · intro hnorep
      have hrepNone :
          (match md.reply_time with
            | none => (none : Option SlaInfo)
            | some events => evalStream "reply_time" events) = none := by
        rcases hnorep with h | ⟨evs, hevs, hnone⟩
        · rw [h]
        · rw [hevs]
          exact (evalStream_eq_none_iff _ _).mpr hnone
      simp only [parse_sla_metrics, hresNone, hrepNone]

/-- The breach scan returns the `time` of the last `breach` event. -/
theorem scanBreachTime_eq_lastBreach (evs : List Event) :
    scanBreachTime evs = (lastBreachEvent evs).bind Event.time := by
  suffices h : ∀ acc : Option Event,
      evs.foldl (fun a e => if e.type = "breach" then e.time else a) (acc.bind Event.time)
        = (evs.foldl (fun a e => if e.type = "breach" then some e else a) acc).bind Event.time by
    exact h none
  induction evs with
  | nil => intro acc; rfl
  | cons e es ih =>
    intro acc
    by_cases h : e.type = "breach"
    · simp only [List.foldl_cons, if_pos h]
      exact ih (some e)
    · simp only [List.foldl_cons, if_neg h]
      exact ih acc

/-- C7 (amended): in an evaluation produced from a chosen stream, `breached`
is true exactly when the last `breach` event of the stream carries a `time`
value, and `fulfilled` is true exactly when some `fulfill` event exists; the
two flags are set independently, so a stream whose last breach carries a
time and which also holds a fulfill event yields both flags true. -/
theorem C7_breach_flag_semantics (mt : String) (evs : List Event) (i : SlaInfo)
    (h : evalStream mt evs = some i) :
    (i.breached = true ↔ ∃ e, lastBreachEvent evs = some e ∧ e.time.isSome = true) ∧
    (i.fulfilled = true ↔ ∃ e ∈ evs, e.type = "fulfill") ∧
    (∀ e, lastBreachEvent evs = some e → e.time.isSome = true →
      (∃ f ∈ evs, f.type = "fulfill") → i.breached = true ∧ i.fulfilled = true) := by
  unfold evalStream at h
  cases hf : findApplySla evs <;> rw [hf] at h
  · exact absurd h (by simp)
  · cases h
    have hb : ((scanBreachTime evs).isSome = true
        ↔ ∃ e, lastBreachEvent evs = some e ∧ e.time.isSome = true) := by
      rw [scanBreachTime_eq_lastBreach]
      cases hl : lastBreachEvent evs <;> simp
    have hfu : (scanFulfill evs = true ↔ ∃ e ∈ evs, e.type = "fulfill") := by
      unfold scanFulfill
      rw [List.any_eq_true]
      simp
    refine ⟨hb, hfu, fun e hlast htime hful => ?_⟩
    exact ⟨hb.mpr ⟨e, hlast, htime⟩, hfu.mpr hful⟩

/-- C2: a ticket whose attached evaluation has `metric_type = reply_time`
and which is classified `breach` never surfaces as an alerting breach: the
rendered badge is the empty string, and the `calculateStats` fold leaves the
aggregate `breached` bucket unchanged at that ticket. -/
theorem C2_reply_time_breach_never_alerting (now : ℚ) (t : Ticket) (m : SlaInfo)
    (hm : t.sla_metrics = some m) (hmt : m.metric_type = "reply_time")
    (hb : (getSLAStatus now t).status = "breach") :
    renderSLABadge now t = "" ∧
    ∀ acc, (slaBucketStep now acc t).breached = acc.breached := by
  have hmtR : (getSLAStatus now t).metricType ≠ some "Resolution" := by
    unfold getSLAStatus
    simp only [hm, hmt]
    split_ifs <;> simp_all
  constructor
  · simp only [renderSLABadge]
    rw [if_pos ⟨hb, hmtR⟩]
  · intro acc
    unfold slaBucketStep
    simp [hm, hmt]

/-- C3: for an open (non-terminal) ticket with an attached evaluation, a
known `created_at` and a positive target, the classification is `breach`
when the breached flag is set or the remaining time (target minus age) is
nonpositive, `warning` (At Risk) when at most a quarter of the target
remains, and `ok` (On Track) otherwise. -/
theorem C3_open_ticket_classification (now c : ℚ) (t : Ticket) (m : SlaInfo)
    (hst : ¬(t.status = "solved" ∨ t.status = "closed"))
    (hm : t.sla_metrics = some m) (hc : t.created_at = some c)
    (hpos : 0 < m.target_seconds) :
    (getSLAStatus now t).status =
      (if m.breached = true ∨ m.target_seconds - (now - c) / 1000 ≤ 0 then "breach"
       else if (m.target_seconds - (now - c) / 1000) / m.target_seconds ≤ 1 / 4 then "warning"
       else "ok") ∧
    (getSLAStatus now t).label =
      (if m.breached = true ∨ m.target_seconds - (now - c) / 1000 ≤ 0 then "Breached"
       else if (m.target_seconds - (now - c) / 1000) / m.target_seconds ≤ 1 / 4 then "At Risk"
       else "On Track") := by
  have hne : m.target_seconds ≠ 0 := ne_of_gt hpos
  have h60 : (0 : ℚ) < 60 := by norm_num
  have hRmin : m.target_seconds / 60 - (now - c) / (1000 * 60)
      = (m.target_seconds - (now - c) / 1000) / 60 := by ring
  have hle0 : (m.target_seconds / 60 - (now - c) / (1000 * 60) ≤ 0)
      ↔ (m.target_seconds - (now - c) / 1000 ≤ 0) := by
    rw [hRmin, div_le_iff h60, zero_mul]
  have heq : (m.target_seconds / 60 - (now - c) / (1000 * 60)) / (m.target_seconds / 60) * 100
      = (m.target_seconds - (now - c) / 1000) / m.target_seconds * 100 := by
    rw [hRmin]
    field_simp
    ring
  have hperc : ((m.target_seconds / 60 - (now - c) / (1000 * 60)) / (m.target_seconds / 60) * 100 ≤ 25)
      ↔ ((m.target_seconds - (now - c) / 1000) / m.target_seconds ≤ 1 / 4) := by
    rw [heq]
    constructor <;> intro h <;> linarith
  unfold getSLAStatus
  by_cases hbr : m.breached = true
  · simp [hm, hc, hst, hne, hbr]
  · have hbf : m.breached = false := by simpa using hbr
    by_cases hR : m.target_seconds - (now - c) / 1000 ≤ 0
    · have h1 := hle0.mpr hR
      simp [hm, hc, hst, hne, hbf, jsLe, h1, hR]
    · have h1 : ¬(m.target_seconds / 60 - (now - c) / (1000 * 60) ≤ 0) := fun hh => hR (hle0.mp hh)
      by_cases hP : (m.target_seconds - (now - c) / 1000) / m.target_seconds ≤ 1 / 4
      · have h2 := hperc.mpr hP
        have hP4 : (m.target_seconds - (now - c) / 1000) / m.target_seconds ≤ 4⁻¹ := by
          rwa [one_div] at hP
        simp [hm, hc, hst, hne, hbf, jsLe, h1, hR, h2, hP4]
      · have h2 : ¬((m.target_seconds / 60 - (now - c) / (1000 * 60)) / (m.target_seconds / 60) * 100 ≤ 25) :=
          fun hh => hP (hperc.mp hh)
        have hP4 : ¬(m.target_seconds - (now - c) / 1000) / m.target_seconds ≤ 4⁻¹ := by
          rwa [one_div] at hP
        simp [hm, hc, hst, hne, hbf, jsLe, h1, hR, h2, hP4]

/-- C5 (amended): for an open ticket with an attached evaluation and a
nonnegative age, a strictly negative `target_seconds` classifies as
`breach`, but a zero `target_seconds` is falsy in the JavaScript guard and
classifies as `none` (`No SLA`) instead of breached; no division fault
occurs in either case. -/
theorem C5_nonpositive_target_classification (now c : ℚ) (t : Ticket) (m : SlaInfo)
    (hst : ¬(t.status = "solved" ∨ t.status = "closed"))
    (hm : t.sla_metrics = some m) (hc : t.created_at = some c) (hage : c ≤ now) :
    (m.target_seconds < 0 →
      (getSLAStatus now t).status = "breach" ∧ (getSLAStatus now t).label = "Breached") ∧
    (m.target_seconds = 0 →
      (getSLAStatus now t).status = "none" ∧ (getSLAStatus now t).label = "No SLA") := by
  constructor
  · intro hneg
    have hne : m.target_seconds ≠ 0 := ne_of_lt hneg
    have hR : m.target_seconds / 60 - (now - c) / (1000 * 60) ≤ 0 := by
      have h1 : m.target_seconds / 60 < 0 := div_neg_of_neg_of_pos hneg (by norm_num)
      have h2 : (0 : ℚ) ≤ (now - c) / (1000 * 60) := div_nonneg (by linarith) (by norm_num)
      linarith
    unfold getSLAStatus
    simp [hm, hc, hst, hne, jsLe, hR]
  · intro hz
    unfold getSLAStatus
    simp [hm, hc, hst, hz]

/-- C6 (amended): for an open ticket whose `created_at` is missing, the
classification is `none` only when no evaluation with a nonzero target is
attached; with such an evaluation the NaN age makes both time comparisons
false, so the status is `breach` exactly when the breached flag is already
set and `ok` (On Track) otherwise. -/
theorem C6_missing_created_at_classification (now : ℚ) (t : Ticket)
    (hst : ¬(t.status = "solved" ∨ t.status = "closed")) (hc : t.created_at = none) :
    (getSLAStatus now t).status =
      (match t.sla_metrics with
       | none => "none"
       | some m =>
         if m.target_seconds = 0 then "none"
         else if m.breached = true then "breach" else "ok") := by
  unfold getSLAStatus
  rcases hm : t.sla_metrics with _ | m
  · simp [hc, hst, hm]
  · by_cases hz : m.target_seconds = 0
    · simp [hc, hst, hm, hz]
    · by_cases hbr : m.breached = true
      · simp [hc, hst, hm, hz, hbr, jsLe]
      · have hbf : m.breached = false := by simpa using hbr
        simp [hc, hst, hm, hz, hbf, jsLe]

/-- C10: `get_stats` raises `KeyError` (modelled as `Except.error`) on a
ticket with no `priority` (the default key `'none'` was never initialized)
and on a ticket with status `hold` (only five statuses are pre-initialized),
contradicting the never-fatal error-handling design. -/
theorem C10_get_stats_keyerror :
    get_stats [mtNoPriority] = .error "KeyError: none" ∧
    get_stats [mtHold] = .error "KeyError: hold" :=
  ⟨rfl, rfl⟩

/-- Inserting into the id map preserves distinctness of the keys. -/
theorem dictInsert_keys_nodup (m : List (Nat × MTicket)) (t : MTicket)
    (h : (m.map Prod.fst).Nodup) : ((dictInsert m t).map Prod.fst).Nodup := by
  unfold dictInsert
  split
  · have hfun : (Prod.fst ∘ fun p : Nat × MTicket => if p.1 = t.id then (p.1, t) else p)
        = Prod.fst := by
      funext p
      by_cases hp : p.1 = t.id <;> simp [hp]
    rw [List.map_map, hfun]
    exact h
  · rename_i hna
    simp only [List.any_eq_true, decide_eq_true_eq] at hna
    push_neg at hna
    rw [List.map_append]
    refine List.Nodup.append h (by simp) ?_
    intro x hx hx2
    simp only [List.map_cons, List.map_nil, List.mem_singleton] at hx2
    subst hx2
    obtain ⟨p, hp, hp2⟩ := List.mem_map.mp hx
    exact hna p hp hp2

/-- All keys of the id mapping built from a batch are distinct. -/
theorem buildIds_keys_nodup (batch : List MTicket) :
    ((buildIds batch).map Prod.fst).Nodup := by
  unfold buildIds
  have h : ∀ acc : List (Nat × MTicket), (acc.map Prod.fst).Nodup →
      ((batch.foldl dictInsert acc).map Prod.fst).Nodup := by
    induction batch with
    | nil => intro acc hacc; exact hacc
    | cons t ts ih => intro acc hacc; exact ih _ (dictInsert_keys_nodup acc t hacc)
  exact h [] (by simp)

/-- In a mapping with distinct keys, lookup recovers each stored pair. -/
theorem lookupId_of_mem (m : List (Nat × MTicket)) (k : Nat) (t : MTicket)
    (h : (m.map Prod.fst).Nodup) (hmem : (k, t) ∈ m) : lookupId k m = some t := by
  induction m with
  | nil => cases hmem
  | cons p ps ih =>
    rcases List.mem_cons.mp hmem with heq | hmem2
    · cases heq.symm
      simp [lookupId]
    · have hne : p.1 ≠ k := by
        intro hk
        have hhead : p.1 ∉ ps.map Prod.fst := by
          simp only [List.map_cons] at h
          exact (List.nodup_cons.mp h).1
        exact hhead (hk ▸ List.mem_map.mpr ⟨(k, t), hmem2, rfl⟩)
      simp only [lookupId, if_neg hne]
      exact ih (by simp only [List.map_cons] at h; exact (List.nodup_cons.mp h).2) hmem2

/-- Every pair of the built mapping is found again by lookup. -/
theorem lookupId_buildIds (batch : List MTicket) :
    ∀ p ∈ buildIds batch, lookupId p.1 (buildIds batch) = some p.2 := by
  intro p hp
  exact lookupId_of_mem _ _ _ (buildIds_keys_nodup batch)
    (by rw [Prod.mk.eta]; exact hp)

/-- C8: running `detect_changes` twice in a row on the identical batch
yields an empty Delta Record on the second call, for any prior snapshot:
the first call replaces the snapshot by the batch's id mapping, so the
second call finds every id with identical status and priority. -/
theorem C8_diff_idempotent (prev0 : List (Nat × MTicket)) (batch : List MTicket) :
    ((detect_changes ((detect_changes prev0 batch).2) batch).1).new_tickets = [] ∧
    ((detect_changes ((detect_changes prev0 batch).2) batch).1).status_changes = [] ∧
    ((detect_changes ((detect_changes prev0 batch).2) batch).1).priority_changes = [] := by
  have hsnap : (detect_changes prev0 batch).2 = buildIds batch := rfl
  rw [hsnap]
  refine ⟨?_, ?_, ?_⟩
  · simp only [detect_changes]
    rw [List.map_eq_nil_iff, List.filter_eq_nil_iff]
    intro p hp
    simp [lookupId_buildIds batch p hp]
  · simp only [detect_changes]
    rw [List.filterMap_eq_nil_iff]
    intro p hp
    rw [lookupId_buildIds batch p hp]
    simp
  · simp only [detect_changes]
    rw [List.filterMap_eq_nil_iff]
    intro p hp
    rw [lookupId_buildIds batch p hp]
    simp

/-- Folding the batch into an id mapping only appends when all batch ids are
distinct and disjoint from the accumulator's keys. -/
theorem buildIds_foldl_of_nodup (batch : List MTicket) :
    ∀ acc : List (Nat × MTicket),
    (batch.map MTicket.id).Nodup →
    (∀ s ∈ batch, ∀ p ∈ acc, p.1 ≠ s.id) →
    batch.foldl dictInsert acc = acc ++ batch.map fun t => (t.id, t) := by
  induction batch with
  | nil => intro acc _ _; simp
  | cons t ts ih =>
    intro acc hnodup hdisj
    simp only [List.map_cons] at hnodup
    have hna : ¬(acc.any fun p => p.1 = t.id) = true := by
      simp only [List.any_eq_true, decide_eq_true_eq]
      rintro ⟨p, hp, hpt⟩
      exact hdisj t (by simp) p hp hpt
    have hstep : dictInsert acc t = acc ++ [(t.id, t)] := by
      unfold dictInsert
      rw [if_neg hna]
    simp only [List.foldl_cons, hstep]
    rw [ih (acc ++ [(t.id, t)]) (List.nodup_cons.mp hnodup).2 ?_]
    · simp
    · intro s hs p hp
      rcases List.mem_append.mp hp with hp1 | hp2
      · exact hdisj s (List.mem_cons_of_mem _ hs) p hp1
      · simp only [List.mem_singleton] at hp2
        subst hp2
        intro hps
        have hps2 : t.id = s.id := hps
        exact (List.nodup_cons.mp hnodup).1 (hps2 ▸ List.mem_map.mpr ⟨s, hs, rfl⟩)

/-- With distinct batch ids, the built mapping is exactly the batch's
id→record pairs in batch order. -/
theorem buildIds_of_nodup (batch : List MTicket) (h : (batch.map MTicket.id).Nodup) :
    buildIds batch = batch.map fun t => (t.id, t) := by
  have hmain := buildIds_foldl_of_nodup batch [] h (by intro s _ p hp; cases hp)
  simpa [buildIds] using hmain

/-- C9: on the first-ever cycle (empty Snapshot Store), `detect_changes`
reports every ticket of the incoming batch (distinct ids) as new, reports no
status changes and no priority changes, and afterwards the stored snapshot
is exactly the id→record mapping of the batch — a full replacement. -/
theorem C9_first_cycle_all_new (batch : List MTicket) (h : (batch.map MTicket.id).Nodup) :
    ((detect_changes [] batch).1).new_tickets = batch ∧
    ((detect_changes [] batch).1).status_changes = [] ∧
    ((detect_changes [] batch).1).priority_changes = [] ∧
    (detect_changes [] batch).2 = batch.map fun t => (t.id, t) := by
  have hb : buildIds batch = batch.map fun t => (t.id, t) := buildIds_of_nodup batch h
  refine ⟨?_, ?_, ?_, ?_⟩
  · simp only [detect_changes, hb]
    have hall : ∀ p ∈ (batch.map fun t => (t.id, t)),
        ((lookupId p.1 []).isNone = true) := fun p _ => rfl
    rw [List.filter_eq_self.mpr hall, List.map_map]
    have hsnd : (Prod.snd ∘ fun t : MTicket => (t.id, t)) = id := by
      funext s
      rfl
    rw [hsnd, List.map_id]
  · simp only [detect_changes, hb]
    rw [List.filterMap_eq_nil_iff]
    intro p _
    rfl
  · simp only [detect_changes, hb]
    rw [List.filterMap_eq_nil_iff]
    intro p _
    rfl
  · simp only [detect_changes, hb]

/-! ## Witnesses -/

/-- Witness for C2 at a concrete breached reply-time ticket. -/
theorem C2_reply_time_breach_never_alerting_witness :
    renderSLABadge 0 tReplyBreached = "" ∧
    (slaBucketStep 0 ⟨3, 4, 5⟩ tReplyBreached).breached = 3 := by
  have h := C2_reply_time_breach_never_alerting 0 tReplyBreached mReply rfl rfl (by decide)
  exact ⟨h.1, h.2 ⟨3, 4, 5⟩⟩

/-- Witness for C3 at a fresh open ticket: comfortably on track. -/
theorem C3_open_ticket_classification_witness :
    (getSLAStatus 0 tOnTrack).status = "ok" ∧ (getSLAStatus 0 tOnTrack).label = "On Track" := by
  have h := C3_open_ticket_classification 0 0 tOnTrack mHourTarget (by decide) rfl rfl (by decide)
  refine ⟨?_, ?_⟩
  · rw [h.1]
    norm_num [mHourTarget, mZeroTarget]
  · rw [h.2]
    norm_num [mHourTarget, mZeroTarget]

/-- Witness for C4: resolution stream wins; reply stream is used when
resolution is absent. -/
theorem C4_metric_precedence_witness :
    parse_sla_metrics (some mdRes) (some "open") = evalStream "resolution_time" evsBreachFulfill ∧
    parse_sla_metrics (some mdReplyOnly) (some "open") = evalStream "reply_time" evsReplyOnly := by
  constructor
  · exact ((C4_metric_precedence mdRes (some "open")).1 evsBreachFulfill rfl (by decide)).1
  · exact (((C4_metric_precedence mdReplyOnly (some "open")).2 (Or.inl rfl)).1
      evsReplyOnly rfl (by decide)).1

/-- Witness for C5 at concrete negative-target and zero-target tickets. -/
theorem C5_nonpositive_target_classification_witness :
    (getSLAStatus 1000 tNegTarget).status = "breach" ∧
    (getSLAStatus 1000 tZeroTarget).status = "none" := by
  constructor
  · exact ((C5_nonpositive_target_classification 1000 0 tNegTarget mNegTarget
      (by decide) rfl rfl (by decide)).1 (by decide)).1
  · exact ((C5_nonpositive_target_classification 1000 0 tZeroTarget mZeroTarget
      (by decide) rfl rfl (by decide)).2 rfl).1

/-- Witness for C6 at a concrete open ticket with missing `created_at`. -/
theorem C6_missing_created_at_classification_witness :
    (getSLAStatus 5 tNoCreated).status = "ok" := by
  have h := C6_missing_created_at_classification 5 tNoCreated (by decide) rfl
  rw [h]
  decide

/-- Witness for C7: a stream with a timed breach and a fulfill yields both
flags true. -/
theorem C7_breach_flag_semantics_witness :
    iBF.breached = true ∧ iBF.fulfilled = true := by
  have h := C7_breach_flag_semantics "resolution_time" evsBreachFulfill iBF (by decide)
  exact h.2.2 ⟨"breach", none, some 5⟩ (by decide) (by decide) (by decide)

/-- Witness for C9 at a concrete two-ticket batch. -/
theorem C9_first_cycle_all_new_witness :
    ((detect_changes [] mBatch).1).new_tickets = mBatch ∧
    ((detect_changes [] mBatch).1).status_changes = [] ∧
    ((detect_changes [] mBatch).1).priority_changes = [] ∧
    (detect_changes [] mBatch).2 = mBatch.map fun t => (t.id, t) :=
  C9_first_cycle_all_new mBatch (by decide)

end ZD
